import Mathlib

/-!
# Verification of the recurrence & synchronization engine
# (kanban-calender-app, `src/backend`)

Shallow embedding of the parts of the repository that the spec's claims are
about:

* the metadata codec `ExtratorMetadados.extrair_metadados` /
  `formatar_atividade` (`dominio.py`), with Python strings modelled as
  `List Char` and the three compiled regex patterns modelled as explicit
  left-to-right scanners with identical matching behaviour (case-insensitivity
  and the `\d`/`\s` classes are modelled over ASCII, which covers every input
  appearing in the claims);
* the recurrence evaluator `ExtratorMetadados.atividade_valida_para_data`
  (`dominio.py`), with calendar dates modelled by their proleptic-Gregorian
  ordinal (`datetime.date.toordinal`), the representation Python's own date
  arithmetic (`weekday`, comparison, `timedelta`) factors through;
* the synchronization service `ServicoSincronizacao` (`servicos.py`) together
  with the store operations it consumes (`persistencia.py`), modelled as
  explicit state passing over a repository value; the clock
  (`date.today()` / `obter_dia_semana_atual()`) is passed in as parameters,
  and a fallible store read is modelled by an `Except`-returning read
  controlled by a failure flag.
-/

/-! ## Python strings -/

/-- A Python `str`, modelled as its list of characters. -/
abbrev Str := List Char

/-- ASCII whitespace, the characters Python's `str.strip()` removes
(restricted to ASCII). -/
def isEspaco (c : Char) : Bool :=
  c = ' ' ∨ c = '\t' ∨ c = '\n' ∨ c = '\r' ∨ c = '\x0b' ∨ c = '\x0c'

/-- Python `str.strip()`: drop whitespace from both ends. -/
def pyStrip (s : Str) : Str :=
  (((s.dropWhile isEspaco).reverse).dropWhile isEspaco).reverse

/-- ASCII lower-casing of a single character (models `re.IGNORECASE` /
`str.lower()` on the ASCII inputs the codec grammar uses). -/
def lowerChar (c : Char) : Char :=
  if 'A' ≤ c ∧ c ≤ 'Z' then Char.ofNat (c.toNat + 32) else c

/-- ASCII decimal digit test (models the regex class `\d` over ASCII). -/
def isDigito (c : Char) : Bool :=
  decide ('0' ≤ c) && decide (c ≤ '9')

/-- The decimal digit character for `r` (callers pass `r < 10`). -/
def digitoDe (r : Nat) : Char :=
  match r with
  | 0 => '0' | 1 => '1' | 2 => '2' | 3 => '3' | 4 => '4'
  | 5 => '5' | 6 => '6' | 7 => '7' | 8 => '8' | _ => '9'

/-! ## Calendar dates

`DataYMD` models a `datetime.date` by its year/month/day fields;
`ordinalDe`/`fromordinal` mirror `date.toordinal`/`date.fromordinal`
(proleptic Gregorian, `0001-01-01` is ordinal 1). -/

structure DataYMD where
  ano : Nat
  mes : Nat
  dia : Nat
deriving DecidableEq, Repr

/-- Gregorian leap year, as in Python's `calendar.isleap`. -/
def bissexto (ano : Nat) : Bool :=
  ano % 4 == 0 && (ano % 100 != 0 || ano % 400 == 0)

/-- Days in month `mes` of year `ano`. -/
def diasNoMes (ano mes : Nat) : Nat :=
  if mes = 2 then (if bissexto ano then 29 else 28)
  else if mes = 4 ∨ mes = 6 ∨ mes = 9 ∨ mes = 11 then 30
  else 31

/-- Days before month `mes` in year `ano` (`_days_before_month`). -/
def diasAntesMes (ano : Nat) (mes : Nat) : Nat :=
  match mes with
  | 0 => 0
  | 1 => 0
  | m + 1 => diasAntesMes ano m + diasNoMes ano m

/-- Days before January 1st of year `ano` (`_days_before_year`). -/
def diasAntesAno (ano : Nat) : Nat :=
  let y := ano - 1
  365 * y + y / 4 - y / 100 + y / 400

/-- `date(ano, mes, dia).toordinal()`. -/
def ordinalDe (ano mes dia : Nat) : Nat :=
  diasAntesAno ano + diasAntesMes ano mes + dia

/-- `date.weekday()`: Monday = 0 … Sunday = 6, computed from the ordinal
exactly as CPython does (`(toordinal + 6) % 7`). -/
def weekdayOrd (n : Nat) : Nat := (n + 6) % 7

/-- The month (1-based) containing 0-based day-of-year `resto` of `ano`:
the largest `m ≤ 12` whose preceding-days count does not exceed `resto`. -/
def mesDoOrdinal (ano resto : Nat) : Nat :=
  (List.range 12).foldl (fun acc j => if diasAntesMes ano (j + 1) ≤ resto then j + 1 else acc) 1

/-- `date.fromordinal`: ordinal back to (year, month, day), by the
400/100/4/1-year decomposition CPython's `_ord2ymd` uses. -/
def fromordinal (n : Nat) : Nat × Nat × Nat :=
  let n0 := n - 1
  let n400 := n0 / 146097
  let r1 := n0 % 146097
  let n100 := r1 / 36524
  let r2 := r1 % 36524
  let n4 := r2 / 1461
  let r3 := r2 % 1461
  let n1 := r3 / 365
  let r4 := r3 % 365
  let ano := n400 * 400 + n100 * 100 + n4 * 4 + n1 + 1
  if n1 = 4 ∨ n100 = 4 then (ano - 1, 12, 31)
  else
    let m := mesDoOrdinal ano r4
    (ano, m, r4 - diasAntesMes ano m + 1)

/-- `date.isoformat()`: `YYYY-MM-DD` (years in Python's range 1…9999). -/
def isoformat (d : DataYMD) : Str :=
  [digitoDe (d.ano / 1000 % 10), digitoDe (d.ano / 100 % 10),
   digitoDe (d.ano / 10 % 10), digitoDe (d.ano % 10)] ++
  '-' :: [digitoDe (d.mes / 10 % 10), digitoDe (d.mes % 10)] ++
  '-' :: [digitoDe (d.dia / 10 % 10), digitoDe (d.dia % 10)]

/-- The validity check `date.fromisoformat` performs on a `YYYY-MM-DD`
candidate (year 1…9999, month 1…12, day within the month). -/
def dataValida (ano mes dia : Nat) : Bool :=
  decide (1 ≤ ano) && decide (ano ≤ 9999) && decide (1 ≤ mes) && decide (mes ≤ 12) &&
  decide (1 ≤ dia) && decide (dia ≤ diasNoMes ano mes)

/-! ## The recurrence evaluator
(`ExtratorMetadados.atividade_valida_para_data`, `dominio.py` lines 384-444).

Dates are passed as ordinals; `hoje` is the value of `date.today()` that the
`None` default of `data_criacao` substitutes. -/

/-- The five periodicity codes (`Periodicidade`). -/
def codigosPeriodicidade : List Str :=
  ["unica".toList, "diaria".toList, "semanal".toList, "quinzenal".toList, "mensal".toList]

/-- `dias_ate_dia_semana` of `atividade_valida_para_data`:
`(data_alvo.weekday() - data_criacao.weekday()) % 7` (Python's `%` on `int`
is Euclidean for a positive modulus, hence `Int.emod`). -/
def diasAteDiaSemana (data_alvo data_criacao : Nat) : Nat :=
  ((((weekdayOrd data_alvo : Int) - (weekdayOrd data_criacao : Int)) % 7)).toNat

/-- The `primeira_ocorrencia` computation of `atividade_valida_para_data`:
advance `data_criacao` forward by `dias_ate_dia_semana` days. -/
def primeiraOcorrencia (data_alvo data_criacao : Nat) : Nat :=
  if diasAteDiaSemana data_alvo data_criacao = 0 ∧
      weekdayOrd data_criacao = weekdayOrd data_alvo then
    data_criacao
  else
    data_criacao + diasAteDiaSemana data_alvo data_criacao

/-- `semana_do_mes` (the local helper of the `mensal` branch): the number of
full weeks between the first occurrence of `d`'s weekday in `d`'s month and
`d` itself.  Python's `//` is floor division, hence `Int.fdiv`. -/
def semanaDoMes (n : Nat) : Int :=
  let ymd := fromordinal n
  let primeiro_dia := ordinalDe ymd.1 ymd.2.1 1
  let primeiro_mesmo_dia_semana :=
    primeiro_dia + ((((weekdayOrd n : Int) - (weekdayOrd primeiro_dia : Int)) % 7)).toNat
  ((n : Int) - (primeiro_mesmo_dia_semana : Int)).fdiv 7

/-- `ExtratorMetadados.atividade_valida_para_data`.  `data_criacao = None`
substitutes `date.today()`, passed here as the `hoje` parameter. -/
def atividade_valida_para_data (data_alvo : Nat) (periodicidade : Str)
    (data_criacao : Option Nat) (hoje : Nat) : Bool :=
  if data_alvo < data_criacao.getD hoje then false
  else if periodicidade = "unica".toList then
    decide (data_alvo = primeiraOcorrencia data_alvo (data_criacao.getD hoje))
  else if periodicidade = "diaria".toList then
    decide (data_criacao.getD hoje ≤ data_alvo) && decide (weekdayOrd data_alvo < 5)
  else if periodicidade = "semanal".toList then
    decide (primeiraOcorrencia data_alvo (data_criacao.getD hoje) ≤ data_alvo)
  else if periodicidade = "quinzenal".toList then
    if data_alvo < primeiraOcorrencia data_alvo (data_criacao.getD hoje) then false
    else decide ((data_alvo - primeiraOcorrencia data_alvo (data_criacao.getD hoje)) / 7 % 2 = 0)
  else if periodicidade = "mensal".toList then
    if data_alvo < primeiraOcorrencia data_alvo (data_criacao.getD hoje) then false
    else decide (semanaDoMes (primeiraOcorrencia data_alvo (data_criacao.getD hoje))
                  = semanaDoMes data_alvo)
  else false

/-! ### Arithmetic facts about `primeiraOcorrencia` -/

/-- The weekday offset equals `(d - c) % 7` once `c ≤ d`. -/
theorem diasAteDiaSemana_eq (d c : Nat) (h : c ≤ d) :
    diasAteDiaSemana d c = (d - c) % 7 := by
  unfold diasAteDiaSemana weekdayOrd
  have h1 : (d + 6) % 7 + 7 * ((d + 6) / 7) = d + 6 := Nat.mod_add_div _ _
  have h2 : (c + 6) % 7 + 7 * ((c + 6) / 7) = c + 6 := Nat.mod_add_div _ _
  omega

/-- Both branches of `primeira_ocorrencia` compute `c + offset`. -/
theorem primeiraOcorrencia_eq (d c : Nat) :
    primeiraOcorrencia d c = c + diasAteDiaSemana d c := by
  unfold primeiraOcorrencia
  split
  · next hc => omega
  · rfl

/-- The first occurrence never precedes the creation date. -/
theorem primeiraOcorrencia_ge (d c : Nat) : c ≤ primeiraOcorrencia d c := by
  rw [primeiraOcorrencia_eq]; omega

/-- Once the target is at or after the creation date, the first occurrence is
at or before the target: the offset is taken modulo 7 towards the **target's**
weekday, so it can never overshoot the target. -/
theorem primeiraOcorrencia_le (d c : Nat) (h : c ≤ d) : primeiraOcorrencia d c ≤ d := by
  rw [primeiraOcorrencia_eq, diasAteDiaSemana_eq d c h]
  omega

/-! ## Claims about the recurrence evaluator -/

/-- **C1 (counterexample).** The claim says weekly `IsDue` is false for every
`d ≥ c` whose weekday differs from `c`'s weekday.  But with `c` = Monday
2024-01-01 and `d` = Tuesday 2024-01-02 (a later date on a different weekday)
the code returns `true`. -/
theorem c1_counterexample :
    ordinalDe 2024 1 1 ≤ ordinalDe 2024 1 2 ∧
    weekdayOrd (ordinalDe 2024 1 2) ≠ weekdayOrd (ordinalDe 2024 1 1) ∧
    atividade_valida_para_data (ordinalDe 2024 1 2) "semanal".toList
      (some (ordinalDe 2024 1 1)) 0 = true := by
  decide

/-- **C1 (amended).** Weekly `IsDue` is true for **every** target `d ≥ c`,
regardless of weekday (and false for `d < c`): `primeira_ocorrencia` is the
earliest date `≥ c` whose weekday equals the **target's** weekday, so it never
exceeds the target and the weekly test `d ≥ primeira_ocorrencia` degenerates
to `d ≥ c`. -/
theorem c1_semanal_amended (hoje data_alvo data_criacao : Nat) :
    atividade_valida_para_data data_alvo "semanal".toList (some data_criacao) hoje
      = decide (data_criacao ≤ data_alvo) := by
  unfold atividade_valida_para_data
  simp only [Option.getD_some]
  by_cases h : data_alvo < data_criacao
  · rw [if_pos h]
    have h2 : ¬ data_criacao ≤ data_alvo := by omega
    simp [h2]
  · have e1 : ¬ ("semanal".toList = "unica".toList) := by decide
    have e2 : ¬ ("semanal".toList = "diaria".toList) := by decide
    rw [if_neg h]
    simp only [eq_false e1, eq_false e2, eq_self_iff_true, if_false, if_true]
    have h1 : primeiraOcorrencia data_alvo data_criacao ≤ data_alvo :=
      primeiraOcorrencia_le _ _ (by omega)
    rw [decide_eq_decide]
    exact iff_of_true h1 (by omega)

/-- **C7.** For every target date strictly before the creation date,
`atividade_valida_para_data` returns false for every recurrence kind,
known or unknown. -/
theorem c7_nunca_antes_criacao (hoje : Nat) (periodicidade : Str)
    (data_alvo data_criacao : Nat) (h : data_alvo < data_criacao) :
    atividade_valida_para_data data_alvo periodicidade (some data_criacao) hoje = false := by
  unfold atividade_valida_para_data
  simp only [Option.getD_some]
  rw [if_pos h]

/-- Witness for `c7_nunca_antes_criacao` at 2024-01-01 < 2024-01-02. -/
theorem c7_witness :
    ordinalDe 2024 1 1 < ordinalDe 2024 1 2 ∧
    atividade_valida_para_data (ordinalDe 2024 1 1) "mensal".toList
      (some (ordinalDe 2024 1 2)) 0 = false :=
  ⟨by decide, c7_nunca_antes_criacao 0 _ _ _ (by decide)⟩

/-- Following the spec's words (§4.2, step 2): `firstOccurrence` is the
earliest date `≥ creationDate` whose weekday equals **`creationDate`'s own**
weekday — which is `creationDate` itself.  Stated for comparison with the
source's `primeiraOcorrencia`, which advances towards the *target's* weekday
instead. -/
def primeiraOcorrenciaSpec (data_criacao : Nat) : Nat := data_criacao

/-- Following the spec's words (§4.2, Monthly): due iff the target is at or
after `firstOccurrence` and the week-of-month ordinals of `firstOccurrence`
and the target coincide, with `firstOccurrence` as the spec defines it. -/
def mensalSpec (data_alvo data_criacao : Nat) : Bool :=
  decide (primeiraOcorrenciaSpec data_criacao ≤ data_alvo) &&
    decide (semanaDoMes (primeiraOcorrenciaSpec data_criacao) = semanaDoMes data_alvo)

/-- **C8 (counterexample).** The claim's general rule — due iff the target is
at or after the first occurrence *in the spec's sense* (the earliest date
`≥ c` on `c`'s weekday, i.e. `c` itself) with equal week-of-month ordinals —
is false of the code whenever creation and target weekdays differ.  With
`c` = Thursday 2024-01-25 (week ordinal 3): the code computes its first
occurrence towards the target's weekday (Wednesday 2024-01-31, week
ordinal 4), so Wednesday 2024-02-28 (week ordinal 3) satisfies the claim's
formula yet the code says not due, while Wednesday 2024-05-29 (week
ordinal 4) fails the claim's formula yet the code says due. -/
theorem c8_counterexample :
    weekdayOrd (ordinalDe 2024 1 25) = 3 ∧
    weekdayOrd (ordinalDe 2024 2 28) = 2 ∧
    mensalSpec (ordinalDe 2024 2 28) (ordinalDe 2024 1 25) = true ∧
    atividade_valida_para_data (ordinalDe 2024 2 28) "mensal".toList
      (some (ordinalDe 2024 1 25)) 0 = false ∧
    mensalSpec (ordinalDe 2024 5 29) (ordinalDe 2024 1 25) = false ∧
    atividade_valida_para_data (ordinalDe 2024 5 29) "mensal".toList
      (some (ordinalDe 2024 1 25)) 0 = true := by
  decide

/-- **C8 (amended).** Monthly recurrence: due iff the target is at or after
the first occurrence **as the code computes it** — the earliest date `≥ c`
whose weekday equals the *target's* weekday — and the week-of-month ordinal
of the target equals that of *that* first occurrence.  The claim's concrete
dates hold (creation 2024-01-03, due 2024-02-07, not due 2024-02-14):
there creation and target share a weekday, so the code's first occurrence
coincides with the spec's. -/
theorem c8_mensal :
    (∀ hoje data_alvo data_criacao : Nat,
      atividade_valida_para_data data_alvo "mensal".toList (some data_criacao) hoje
        = (decide (primeiraOcorrencia data_alvo data_criacao ≤ data_alvo) &&
           decide (semanaDoMes (primeiraOcorrencia data_alvo data_criacao)
                    = semanaDoMes data_alvo))) ∧
    atividade_valida_para_data (ordinalDe 2024 2 7) "mensal".toList
      (some (ordinalDe 2024 1 3)) 0 = true ∧
    atividade_valida_para_data (ordinalDe 2024 2 14) "mensal".toList
      (some (ordinalDe 2024 1 3)) 0 = false := by
  refine ⟨?_, by decide, by decide⟩
  intro hoje d c
  unfold atividade_valida_para_data
  simp only [Option.getD_some]
  by_cases hd : d < c
  · rw [if_pos hd]
    have h2 : ¬ primeiraOcorrencia d c ≤ d := by
      have := primeiraOcorrencia_ge d c; omega
    simp [h2]
  · have e1 : ¬ ("mensal".toList = "unica".toList) := by decide
    have e2 : ¬ ("mensal".toList = "diaria".toList) := by decide
    have e3 : ¬ ("mensal".toList = "semanal".toList) := by decide
    have e4 : ¬ ("mensal".toList = "quinzenal".toList) := by decide
    rw [if_neg hd]
    simp only [eq_false e1, eq_false e2, eq_false e3, eq_false e4,
      eq_self_iff_true, if_false, if_true]
    by_cases h3 : d < primeiraOcorrencia d c
    · rw [if_pos h3]
      have h4 : ¬ primeiraOcorrencia d c ≤ d := by omega
      simp [h4]
    · rw [if_neg h3]
      have h4 : primeiraOcorrencia d c ≤ d := by omega
      simp [h4]

/-- **C9.** An unknown recurrence-kind string falls through every branch of
the dispatch and yields false ("never due"), for every pair of dates. -/
theorem c9_codigo_desconhecido (hoje : Nat) (periodicidade : Str)
    (data_alvo data_criacao : Nat) (h : periodicidade ∉ codigosPeriodicidade) :
    atividade_valida_para_data data_alvo periodicidade (some data_criacao) hoje = false := by
  simp only [codigosPeriodicidade, List.mem_cons, List.not_mem_nil, or_false, not_or] at h
  obtain ⟨h1, h2, h3, h4, h5⟩ := h
  unfold atividade_valida_para_data
  simp only [Option.getD_some]
  by_cases hd : data_alvo < data_criacao
  · rw [if_pos hd]
  · rw [if_neg hd, if_neg h1, if_neg h2, if_neg h3, if_neg h4, if_neg h5]

/-- Witness for `c9_codigo_desconhecido` at the unknown code `"anual"`. -/
theorem c9_witness :
    "anual".toList ∉ codigosPeriodicidade ∧
    atividade_valida_para_data (ordinalDe 2024 1 8) "anual".toList
      (some (ordinalDe 2024 1 1)) 0 = false :=
  ⟨by decide, c9_codigo_desconhecido 0 _ _ _ (by decide)⟩

/-! ## The metadata codec (`ExtratorMetadados`, `dominio.py` lines 231-382)

The three compiled patterns (`_PADRAO_PRIORIDADE`, `_PADRAO_PERIODICIDADE`,
`_PADRAO_DATA`) are fixed-shape patterns with no backtracking freedom;
`re.search` is modelled by a left-to-right scan trying the pattern at each
position (`busca…` functions, with `casa…` doing the match at one position). -/

/-- Match `\[P([0-3])\]` (IGNORECASE) at the current position. -/
def casaPrioridade (s : Str) : Option Nat :=
  match s with
  | a :: b :: c :: d :: _ =>
      if a = '[' ∧ (b = 'P' ∨ b = 'p') ∧ '0' ≤ c ∧ c ≤ '3' ∧ d = ']' then
        some (c.toNat - 48)
      else none
  | _ => none

/-- `_PADRAO_PRIORIDADE.search`: first match, scanning left to right. -/
def buscaPrioridade : Str → Option Nat
  | [] => none
  | c :: resto =>
      match casaPrioridade (c :: resto) with
      | some v => some v
      | none => buscaPrioridade resto

/-- Case-insensitive word match; returns the remainder after the word. -/
def casaPalavra : Str → Str → Option Str
  | [], resto => some resto
  | _ :: _, [] => none
  | w :: ws, c :: cs => if lowerChar c = w then casaPalavra ws cs else none

/-- Does `cod` match case-insensitively at `resto`, followed by `]`? -/
def casaCodigoFechado (cod resto : Str) : Bool :=
  match casaPalavra cod resto with
  | some (c :: _) => decide (c = ']')
  | _ => false

/-- Match `\[(unica|diaria|semanal|quinzenal|mensal)\]` (IGNORECASE) at the
current position; the five alternatives start with distinct letters, so at
most one fits.  The returned value is the lowered matched group, i.e. the
code itself. -/
def casaPeriodicidade (s : Str) : Option Str :=
  match s with
  | c :: resto =>
      if c = '[' then codigosPeriodicidade.find? (fun cod => casaCodigoFechado cod resto)
      else none
  | [] => none

/-- `_PADRAO_PERIODICIDADE.search`. -/
def buscaPeriodicidade : Str → Option Str
  | [] => none
  | c :: resto =>
      match casaPeriodicidade (c :: resto) with
      | some cod => some cod
      | none => buscaPeriodicidade resto

/-- Numeric value of an ASCII digit character. -/
def valorDigito (c : Char) : Nat := c.toNat - 48

/-- Match `\[(\d{4}-\d{2}-\d{2})\]` at the current position, returning the
year/month/day numbers of the matched group. -/
def casaData (s : Str) : Option (Nat × Nat × Nat) :=
  match s with
  | a :: y1 :: y2 :: y3 :: y4 :: t1 :: m1 :: m2 :: t2 :: d1 :: d2 :: f :: _ =>
      if a = '[' ∧ isDigito y1 ∧ isDigito y2 ∧ isDigito y3 ∧ isDigito y4 ∧ t1 = '-' ∧
          isDigito m1 ∧ isDigito m2 ∧ t2 = '-' ∧ isDigito d1 ∧ isDigito d2 ∧ f = ']' then
        some (valorDigito y1 * 1000 + valorDigito y2 * 100 + valorDigito y3 * 10 + valorDigito y4,
              valorDigito m1 * 10 + valorDigito m2,
              valorDigito d1 * 10 + valorDigito d2)
      else none
  | _ => none

/-- `_PADRAO_DATA.search`. -/
def buscaData : Str → Option (Nat × Nat × Nat)
  | [] => none
  | c :: resto =>
      match casaData (c :: resto) with
      | some v => some v
      | none => buscaData resto

/-- `ExtratorMetadados.extrair_prioridade`: matched digit, default 3. -/
def extrair_prioridade (s : Str) : Nat :=
  if s = [] then 3
  else
    match buscaPrioridade s with
    | some v => v
    | none => 3

/-- `ExtratorMetadados.extrair_periodicidade`: lowered matched code,
default `"semanal"`. -/
def extrair_periodicidade (s : Str) : Str :=
  if s = [] then "semanal".toList
  else
    match buscaPeriodicidade s with
    | some cod => cod
    | none => "semanal".toList

/-- `ExtratorMetadados.extrair_data_criacao`: first `[\d{4}-\d{2}-\d{2}]`
group, run through `date.fromisoformat`; a `ValueError` (invalid calendar
date) is swallowed and yields `None`. -/
def extrair_data_criacao (s : Str) : Option DataYMD :=
  if s = [] then none
  else
    match buscaData s with
    | some (y, m, d) => if dataValida y m d then some ⟨y, m, d⟩ else none
    | none => none

/-- Match `^\s*\[(\d{2}:\d{2})\]\s*` (`_PADRAO_HORARIO`); on success return
what follows the match. -/
def casaHorario (s : Str) : Option Str :=
  match s.dropWhile isEspaco with
  | a :: h1 :: h2 :: t :: m1 :: m2 :: f :: resto =>
      if a = '[' ∧ isDigito h1 ∧ isDigito h2 ∧ t = ':' ∧ isDigito m1 ∧ isDigito m2 ∧ f = ']' then
        some (resto.dropWhile isEspaco)
      else none
  | _ => none

/-- `_PADRAO_HORARIO.sub('', s)`: remove the anchored time prefix if it
matches; otherwise the string is unchanged. -/
def removeHorario (s : Str) : Str :=
  match casaHorario s with
  | some r => r
  | none => s

/-- Consume `[^\]]*\]`: skip to the first `]`, return what follows. -/
def munchFim : Str → Option Str
  | [] => none
  | c :: resto => if c = ']' then some resto else munchFim resto

/-- Consume `[^\]]+\]` (at least one bracket-free character, then `]`). -/
def munchConteudo : Str → Option Str
  | [] => none
  | c :: resto => if c = ']' then none else munchFim resto

/-- Consume one `\[[^\]]+\]\s*` group of `_PADRAO_METADADOS`. -/
def munchGrupo (s : Str) : Option Str :=
  match s with
  | c :: resto =>
      if c = '[' then
        match munchConteudo resto with
        | some depois => some (depois.dropWhile isEspaco)
        | none => none
      else none
  | [] => none

theorem munchFim_length (s r : Str) (h : munchFim s = some r) : r.length < s.length := by
  induction s with
  | nil => simp [munchFim] at h
  | cons c resto ih =>
      by_cases hc : c = ']'
      · simp only [munchFim, if_pos hc, Option.some.injEq] at h
        subst h
        simp
      · simp only [munchFim, if_neg hc] at h
        have := ih h
        simp only [List.length_cons]
        omega

theorem munchConteudo_length (s r : Str) (h : munchConteudo s = some r) :
    r.length < s.length := by
  cases s with
  | nil => simp [munchConteudo] at h
  | cons c resto =>
      by_cases hc : c = ']'
      · simp [munchConteudo, if_pos hc] at h
      · simp only [munchConteudo, if_neg hc] at h
        have := munchFim_length resto r h
        simp only [List.length_cons]
        omega

theorem munchGrupo_length (s r : Str) (h : munchGrupo s = some r) : r.length < s.length := by
  cases s with
  | nil => simp [munchGrupo] at h
  | cons c resto =>
      by_cases hc : c = '['
      · simp only [munchGrupo, if_pos hc] at h
        cases hm : munchConteudo resto with
        | none => rw [hm] at h; simp at h
        | some depois =>
            rw [hm] at h
            simp only [Option.some.injEq] at h
            subst h
            have h1 := munchConteudo_length resto depois hm
            have h2 : (depois.dropWhile isEspaco).length ≤ depois.length :=
              (List.dropWhile_sublist isEspaco (l := depois)).length_le
            simp only [List.length_cons]
            omega
      · simp [munchGrupo, if_neg hc] at h

/-- The greedy `( … )+` loop of `_PADRAO_METADADOS`: keep consuming groups
while one matches.  Written with an explicit fuel so that it evaluates by
kernel reduction; `s.length` steps always suffice because every matched
group consumes at least one character (`munchGrupo_length`). -/
def removeGruposFuel : Nat → Str → Str
  | 0, s => s
  | fuel + 1, s =>
      match munchGrupo s with
      | some r => removeGruposFuel fuel r
      | none => s

/-- The saturated group-consuming loop. -/
def removeGruposLoop (s : Str) : Str := removeGruposFuel s.length s

theorem removeGruposFuel_congr : ∀ (f1 f2 : Nat) (s : Str),
    s.length ≤ f1 → s.length ≤ f2 → removeGruposFuel f1 s = removeGruposFuel f2 s := by
  intro f1
  induction f1 with
  | zero =>
      intro f2 s h1 h2
      have hs : s = [] := List.eq_nil_of_length_eq_zero (by omega)
      subst hs
      cases f2 with
      | zero => rfl
      | succ g2 => simp [removeGruposFuel, munchGrupo]
  | succ g1 ih =>
      intro f2 s h1 h2
      cases f2 with
      | zero =>
          have hs : s = [] := List.eq_nil_of_length_eq_zero (by omega)
          subst hs
          simp [removeGruposFuel, munchGrupo]
      | succ g2 =>
          simp only [removeGruposFuel]
          cases hm : munchGrupo s with
          | none => rfl
          | some r =>
              have hlen := munchGrupo_length s r hm
              exact ih g2 r (by omega) (by omega)

/-- One consuming step of the saturated loop. -/
theorem removeGruposLoop_eq_of_munch (s r : Str) (h : munchGrupo s = some r) :
    removeGruposLoop s = removeGruposLoop r := by
  have hl := munchGrupo_length s r h
  unfold removeGruposLoop
  obtain ⟨n, hn⟩ : ∃ n, s.length = n + 1 := ⟨s.length - 1, by omega⟩
  rw [hn]
  simp only [removeGruposFuel, h]
  exact removeGruposFuel_congr n r.length r (by omega) (le_refl _)

/-- The saturated loop stops when no group matches. -/
theorem removeGruposLoop_eq_self (s : Str) (h : munchGrupo s = none) :
    removeGruposLoop s = s := by
  unfold removeGruposLoop
  cases hl : s.length with
  | zero => rfl
  | succ n => simp only [removeGruposFuel, h]

/-- `ExtratorMetadados.extrair_titulo_limpo`: strip the time prefix, strip the
anchored run of bracket groups (`_PADRAO_METADADOS.sub('', ·)` changes
nothing when no group matches after the leading whitespace), then trim. -/
def extrair_titulo_limpo (s : Str) : Str :=
  if s = [] then []
  else
    pyStrip
      (match munchGrupo ((removeHorario s).dropWhile isEspaco) with
       | some r => removeGruposLoop r
       | none => removeHorario s)

/-- `MetadadosAtividade` (the decoded metadata record). -/
structure MetadadosAtividade where
  titulo : Str
  prioridade : Nat
  periodicidade : Str
  data_criacao : Option DataYMD
deriving DecidableEq, Repr

/-- `ExtratorMetadados.extrair_metadados`. -/
def extrair_metadados (s : Str) : MetadadosAtividade :=
  { titulo := extrair_titulo_limpo s
    prioridade := extrair_prioridade s
    periodicidade := extrair_periodicidade s
    data_criacao := extrair_data_criacao s }

/-- `ExtratorMetadados.formatar_atividade`:
`f"[P{prioridade}][{periodicidade}][{data_str}] {titulo}"`, where `data_str`
is the ISO form of `data_criacao or date.today()` (`hoje`). -/
def formatar_atividade (titulo : Str) (prioridade : Nat) (periodicidade : Str)
    (data_criacao : Option DataYMD) (hoje : DataYMD) : Str :=
  '[' :: 'P' ::
    (Nat.toDigits 10 prioridade ++
      (']' :: '[' ::
        (periodicidade ++
          (']' :: '[' ::
            (isoformat (data_criacao.getD hoje) ++ (']' :: ' ' :: titulo))))))

/-! ## The synchronization service
(`ServicoSincronizacao`, `servicos.py` lines 441-593, plus the store
operations of `persistencia.py` and `ServicoTarefas.criar_tarefa`).

The store is modelled by an explicit repository value.  Writes are modelled
as always succeeding; a *failing task read* (`obter_por_dia` raising) — the
situation `_tarefa_ja_existe_hoje` guards against with `try/except` — is
modelled by the `falha_leitura` flag, which makes the read return an error
value.  The clock is a parameter: `dia_atual` is the value of
`obter_dia_semana_atual()` (`None` on weekends) and `data_hoje` the value of
`date.today().isoformat()`. -/

/-- `DiaDaSemana` (business weekdays). -/
inductive DiaDaSemana where
  | SEGUNDA | TERCA | QUARTA | QUINTA | SEXTA
deriving DecidableEq, Repr

/-- The `.value` strings of `DiaDaSemana`. -/
def DiaDaSemana.value : DiaDaSemana → Str
  | .SEGUNDA => "Segunda-Feira".toList
  | .TERCA => "Terça-Feira".toList
  | .QUARTA => "Quarta-Feira".toList
  | .QUINTA => "Quinta-Feira".toList
  | .SEXTA => "Sexta-Feira".toList

/-- `TarefaDTO` (board task record). -/
structure TarefaDTO where
  titulo : Str
  dia : Str
  status : Str
  id : Option Nat := none
  horario : Str := []
  prioridade : Nat := 3
  origem : Str := "manual".toList
  atividade_origem_id : Option Nat := none
  data_criacao : Option Str := none
deriving DecidableEq, Repr

/-- The repository state consumed by the service layer: the board tasks
(`tarefas` table), the grid cells (`agenda_horarios` table, rows
`(rotulo_horario, coluna, atividade)`), the autoincrement counter, and the
read-failure flag. -/
structure RepositorioTarefas where
  tarefas : List TarefaDTO
  grade : List (Str × Nat × Str)
  proximo_id : Nat := 1
  falha_leitura : Bool := false
deriving DecidableEq, Repr

/-- `RepositorioTarefas.obter_por_dia`: the tasks of one weekday, or a raised
repository error.  (The SQL `ORDER BY prioridade` only permutes the rows;
the membership questions the service asks are order-insensitive, so rows are
kept in insertion order.) -/
def obter_por_dia (repo : RepositorioTarefas) (dia : Str) : Except Unit (List TarefaDTO) :=
  if repo.falha_leitura then .error ()
  else .ok (repo.tarefas.filter (fun t => t.dia == dia))

/-- `RepositorioTarefas.adicionar`: insert a task, returning `lastrowid`. -/
def adicionar (repo : RepositorioTarefas) (t : TarefaDTO) : Nat × RepositorioTarefas :=
  (repo.proximo_id,
   { repo with
      tarefas := repo.tarefas ++ [{ t with id := some repo.proximo_id }]
      proximo_id := repo.proximo_id + 1 })

/-- `ServicoTarefas.criar_tarefa`: refuse blank titles (returning `None`),
otherwise store the trimmed title with status `Fazer` and
`data_criacao = date.today().isoformat()` (the `data_hoje` parameter). -/
def criar_tarefa (repo : RepositorioTarefas) (titulo : Str) (dia : DiaDaSemana)
    (prioridade : Nat) (origem : Str) (data_hoje : Str) :
    Option Nat × RepositorioTarefas :=
  if titulo = [] ∨ pyStrip titulo = [] then (none, repo)
  else
    let resultado := adicionar repo
      { titulo := pyStrip titulo
        dia := dia.value
        status := "Fazer".toList
        prioridade := prioridade
        origem := origem
        atividade_origem_id := none
        data_criacao := some data_hoje }
    (some resultado.1, resultado.2)

/-- The candidate title `f"[{horario}] {atividade}"`. -/
def tituloCandidato (horario atividade : Str) : Str :=
  '[' :: (horario ++ (']' :: ' ' :: atividade))

/-- `ServicoSincronizacao._tarefa_ja_existe_hoje`: scan today's tasks for one
with the candidate title that either was created today (`data_criacao`
matches) or is an `"agenda"`-origin record (legacy fallback); a raised read
error is swallowed and reported as "no duplicate". -/
def tarefa_ja_existe_hoje (repo : RepositorioTarefas) (dia : DiaDaSemana)
    (horario atividade : Str) (data_hoje : Str) : Bool :=
  match obter_por_dia repo dia.value with
  | .error _ => false
  | .ok tarefas_do_dia =>
      tarefas_do_dia.any (fun t =>
        t.titulo == tituloCandidato horario atividade &&
          (t.data_criacao == some data_hoje || t.origem == "agenda".toList))

/-- `ServicoSincronizacao._obter_indice_dia`. -/
def obter_indice_dia : DiaDaSemana → Nat
  | .SEGUNDA => 0
  | .TERCA => 1
  | .QUARTA => 2
  | .QUINTA => 3
  | .SEXTA => 4

/-- The summary dictionary returned by the synchronization. -/
structure Resultado where
  criadas : Nat
  ignoradas : Nat
  erros : List Str
deriving DecidableEq, Repr

/-- The per-cell loop of `sincronizar_agenda_para_kanban`: skip cells whose
duplicate check fires, otherwise create the task (with the priority decoded
from the cell text) and count the outcome. -/
def processar_atividades (dia : DiaDaSemana) (data_hoje : Str) :
    List (Str × Str) → Resultado → RepositorioTarefas → Resultado × RepositorioTarefas
  | [], res, repo => (res, repo)
  | (horario, atividade) :: resto, res, repo =>
      if tarefa_ja_existe_hoje repo dia horario atividade data_hoje then
        processar_atividades dia data_hoje resto
          { res with ignoradas := res.ignoradas + 1 } repo
      else
        match criar_tarefa repo (tituloCandidato horario atividade) dia
            (extrair_prioridade atividade) "agenda".toList data_hoje with
        | (some _, repo2) =>
            processar_atividades dia data_hoje resto
              { res with criadas := res.criadas + 1 } repo2
        | (none, repo2) =>
            processar_atividades dia data_hoje resto
              { res with erros := res.erros ++ [atividade] } repo2

/-- The cells the loop iterates over (`atividades_hoje`): grid rows in
today's column whose text is non-empty and non-blank. -/
def atividades_hoje (repo : RepositorioTarefas) (dia : DiaDaSemana) : List (Str × Str) :=
  repo.grade.filterMap (fun linha =>
    if linha.2.1 = obter_indice_dia dia ∧ linha.2.2 ≠ [] ∧ pyStrip linha.2.2 ≠ [] then
      some (linha.1, linha.2.2)
    else none)

/-- `ServicoSincronizacao.sincronizar_agenda_para_kanban`: weekend
short-circuit, then process the non-blank cells of today's column. -/
def sincronizar_agenda_para_kanban (repo : RepositorioTarefas)
    (dia_atual : Option DiaDaSemana) (data_hoje : Str) :
    Resultado × RepositorioTarefas :=
  match dia_atual with
  | none => (⟨0, 0, []⟩, repo)
  | some dia => processar_atividades dia data_hoje (atividades_hoje repo dia) ⟨0, 0, []⟩ repo

/-! ### Structural lemmas about the synchronization loop -/

theorem mem_dropWhile_of_mem (p : Char → Bool) (c : Char) :
    ∀ l : Str, c ∈ l → p c = false → c ∈ l.dropWhile p := by
  intro l
  induction l with
  | nil => intro h _; exact absurd h (List.not_mem_nil c)
  | cons x xs ih =>
      intro hmem hpc
      by_cases hx : p x
      · rw [List.dropWhile_cons_of_pos hx]
        rcases List.mem_cons.mp hmem with rfl | hxs
        · rw [hx] at hpc; exact absurd hpc (by simp)
        · exact ih hxs hpc
      · rw [List.dropWhile_cons_of_neg hx]
        exact hmem

/-- If the trimmed string is empty, every character was whitespace. -/
theorem pyStrip_eq_nil (s : Str) (h : pyStrip s = []) :
    ∀ c ∈ s, isEspaco c = true := by
  intro c hc
  by_contra hne
  have hcf : isEspaco c = false := by
    cases hx : isEspaco c
    · rfl
    · exact absurd hx hne
  have h1 : c ∈ s.dropWhile isEspaco := mem_dropWhile_of_mem _ _ _ hc hcf
  have h2 : c ∈ (s.dropWhile isEspaco).reverse := List.mem_reverse.mpr h1
  have h3 : c ∈ ((s.dropWhile isEspaco).reverse).dropWhile isEspaco :=
    mem_dropWhile_of_mem _ _ _ h2 hcf
  have h4 : ((s.dropWhile isEspaco).reverse).dropWhile isEspaco = [] := by
    unfold pyStrip at h
    exact List.reverse_eq_nil_iff.mp h
  rw [h4] at h3
  exact absurd h3 (List.not_mem_nil c)

/-- The candidate title starts with `[`, so its trimmed form is non-blank and
`criar_tarefa` always accepts it. -/
theorem tituloCandidato_strip_ne (horario atividade : Str) :
    pyStrip (tituloCandidato horario atividade) ≠ [] := by
  intro h
  have := pyStrip_eq_nil _ h '[' (by simp [tituloCandidato])
  simp [isEspaco] at this

/-- Evaluation of `criar_tarefa` on a non-blank title. -/
theorem criar_tarefa_eq (repo : RepositorioTarefas) (titulo : Str) (dia : DiaDaSemana)
    (prioridade : Nat) (origem : Str) (data_hoje : Str) (h : pyStrip titulo ≠ []) :
    criar_tarefa repo titulo dia prioridade origem data_hoje =
      (some repo.proximo_id,
       { repo with
          tarefas := repo.tarefas ++
            [⟨pyStrip titulo, dia.value, "Fazer".toList, some repo.proximo_id, [],
              prioridade, origem, none, some data_hoje⟩]
          proximo_id := repo.proximo_id + 1 }) := by
  have h2 : ¬ (titulo = [] ∨ pyStrip titulo = []) := by
    rintro (rfl | hh)
    · exact h rfl
    · exact h hh
  unfold criar_tarefa adicionar
  rw [if_neg h2]

/-- Shape of one full run of the cell loop: the summary only ever grows from
the accumulator, with one created-or-skipped outcome (never an error entry,
since candidate titles are never blank) per cell, and the repository is only
extended by the created tasks. -/
theorem processar_shape (dia : DiaDaSemana) (data_hoje : Str) :
    ∀ (l : List (Str × Str)) (res : Resultado) (repo : RepositorioTarefas),
      ∃ (nc ni : Nat) (novas : List TarefaDTO),
        (processar_atividades dia data_hoje l res repo).1.criadas = res.criadas + nc ∧
        (processar_atividades dia data_hoje l res repo).1.ignoradas = res.ignoradas + ni ∧
        (processar_atividades dia data_hoje l res repo).1.erros = res.erros ∧
        (processar_atividades dia data_hoje l res repo).2.tarefas = repo.tarefas ++ novas ∧
        (processar_atividades dia data_hoje l res repo).2.grade = repo.grade ∧
        (processar_atividades dia data_hoje l res repo).2.falha_leitura = repo.falha_leitura ∧
        (processar_atividades dia data_hoje l res repo).2.proximo_id
          = repo.proximo_id + novas.length ∧
        nc + ni = l.length ∧ novas.length = nc := by
  intro l
  induction l with
  | nil =>
      intro res repo
      exact ⟨0, 0, [], by simp [processar_atividades]⟩
  | cons cel resto ih =>
      intro res repo
      obtain ⟨horario, atividade⟩ := cel
      by_cases hdup : tarefa_ja_existe_hoje repo dia horario atividade data_hoje
      · obtain ⟨nc, ni, novas, h1, h2, h3, h4, h5, h6, h7, h8, h9⟩ :=
          ih { res with ignoradas := res.ignoradas + 1 } repo
        refine ⟨nc, ni + 1, novas, ?_⟩
        simp only [processar_atividades, if_pos hdup] at *
        simp only [List.length_cons]
        refine ⟨by omega, by omega, h3, h4, h5, h6, by omega, by omega, h9⟩
      · have hcr := criar_tarefa_eq repo (tituloCandidato horario atividade) dia
          (extrair_prioridade atividade) "agenda".toList data_hoje
          (tituloCandidato_strip_ne horario atividade)
        obtain ⟨nc, ni, novas, h1, h2, h3, h4, h5, h6, h7, h8, h9⟩ :=
          ih { res with criadas := res.criadas + 1 }
            { repo with
                tarefas := repo.tarefas ++
                  [⟨pyStrip (tituloCandidato horario atividade), dia.value, "Fazer".toList,
                    some repo.proximo_id, [], extrair_prioridade atividade,
                    "agenda".toList, none, some data_hoje⟩]
                proximo_id := repo.proximo_id + 1 }
        refine ⟨nc + 1, ni,
          ⟨pyStrip (tituloCandidato horario atividade), dia.value, "Fazer".toList,
            some repo.proximo_id, [], extrair_prioridade atividade,
            "agenda".toList, none, some data_hoje⟩ :: novas, ?_⟩
        simp only [processar_atividades, if_neg hdup, hcr] at *
        simp only [List.append_assoc, List.singleton_append] at h4
        simp only [List.length_cons]
        refine ⟨by omega, by omega, h3, h4, h5, h6, by omega, by omega, by omega⟩

/-- If a run of the loop reports no new skips, then every processed cell got
its task created: the final repository holds, for each cell, a task on
today's weekday whose title is the trimmed candidate title, created today
with origin `"agenda"`. -/
theorem processar_sem_ignorar (dia : DiaDaSemana) (data_hoje : Str) :
    ∀ (l : List (Str × Str)) (res : Resultado) (repo : RepositorioTarefas),
      (processar_atividades dia data_hoje l res repo).1.ignoradas = res.ignoradas →
      ∀ ha ∈ l, ∃ t ∈ (processar_atividades dia data_hoje l res repo).2.tarefas,
        t.dia = dia.value ∧ t.titulo = pyStrip (tituloCandidato ha.1 ha.2) ∧
        t.data_criacao = some data_hoje ∧ t.origem = "agenda".toList := by
  intro l
  induction l with
  | nil => intro res repo _ ha hmem; exact absurd hmem (List.not_mem_nil _)
  | cons cel resto ih =>
      intro res repo hign ha hmem
      obtain ⟨horario, atividade⟩ := cel
      by_cases hdup : tarefa_ja_existe_hoje repo dia horario atividade data_hoje
      · exfalso
        obtain ⟨nc, ni, novas, _, h2, _⟩ :=
          processar_shape dia data_hoje resto { res with ignoradas := res.ignoradas + 1 } repo
        simp only [processar_atividades, if_pos hdup] at hign
        rw [h2] at hign
        simp at hign
        omega
      · have hcr := criar_tarefa_eq repo (tituloCandidato horario atividade) dia
          (extrair_prioridade atividade) "agenda".toList data_hoje
          (tituloCandidato_strip_ne horario atividade)
        have hP : processar_atividades dia data_hoje ((horario, atividade) :: resto) res repo
            = processar_atividades dia data_hoje resto
                { res with criadas := res.criadas + 1 }
                { repo with
                    tarefas := repo.tarefas ++
                      [⟨pyStrip (tituloCandidato horario atividade), dia.value,
                        "Fazer".toList, some repo.proximo_id, [],
                        extrair_prioridade atividade, "agenda".toList, none,
                        some data_hoje⟩]
                    proximo_id := repo.proximo_id + 1 } := by
          simp only [processar_atividades, if_neg hdup, hcr]
        rw [hP] at hign ⊢
        rcases List.mem_cons.mp hmem with rfl | hresto
        · obtain ⟨nc, ni, novas, _, _, _, h4, _⟩ :=
            processar_shape dia data_hoje resto
              { res with criadas := res.criadas + 1 }
              { repo with
                  tarefas := repo.tarefas ++
                    [⟨pyStrip (tituloCandidato horario atividade), dia.value,
                      "Fazer".toList, some repo.proximo_id, [],
                      extrair_prioridade atividade, "agenda".toList, none,
                      some data_hoje⟩]
                  proximo_id := repo.proximo_id + 1 }
          refine ⟨⟨pyStrip (tituloCandidato horario atividade), dia.value,
            "Fazer".toList, some repo.proximo_id, [],
            extrair_prioridade atividade, "agenda".toList, none, some data_hoje⟩,
            ?_, rfl, rfl, rfl, rfl⟩
          rw [h4]
          simp
        · exact ih _ _ hign ha hresto

/-- If every cell's duplicate check fires against the starting repository,
the whole run only counts skips and leaves the repository untouched. -/
theorem processar_todos_ignorados (dia : DiaDaSemana) (data_hoje : Str) :
    ∀ (l : List (Str × Str)) (res : Resultado) (repo : RepositorioTarefas),
      (∀ ha ∈ l, tarefa_ja_existe_hoje repo dia ha.1 ha.2 data_hoje = true) →
      processar_atividades dia data_hoje l res repo
        = ({ res with ignoradas := res.ignoradas + l.length }, repo) := by
  intro l
  induction l with
  | nil => intro res repo _; simp [processar_atividades]
  | cons cel resto ih =>
      intro res repo hall
      obtain ⟨horario, atividade⟩ := cel
      have hdup := hall (horario, atividade) (List.mem_cons_self _ _)
      simp only [processar_atividades, if_pos hdup]
      rw [ih _ _ (fun ha hm => hall ha (List.mem_cons_of_mem _ hm))]
      simp only [List.length_cons, Prod.mk.injEq, Resultado.mk.injEq,
        eq_self_iff_true, and_true, true_and]
      omega

/-- A raised task read makes the duplicate check answer `false`. -/
theorem tarefa_ja_existe_hoje_falha (repo : RepositorioTarefas) (dia : DiaDaSemana)
    (horario atividade data_hoje : Str) (hf : repo.falha_leitura = true) :
    tarefa_ja_existe_hoje repo dia horario atividade data_hoje = false := by
  simp [tarefa_ja_existe_hoje, obter_por_dia, hf]

/-- Under a persistent read failure no cell is ever skipped. -/
theorem processar_com_falha (dia : DiaDaSemana) (data_hoje : Str) :
    ∀ (l : List (Str × Str)) (res : Resultado) (repo : RepositorioTarefas),
      repo.falha_leitura = true →
      (processar_atividades dia data_hoje l res repo).1.ignoradas = res.ignoradas := by
  intro l
  induction l with
  | nil => intro res repo _; simp [processar_atividades]
  | cons cel resto ih =>
      intro res repo hf
      obtain ⟨horario, atividade⟩ := cel
      have hdup : tarefa_ja_existe_hoje repo dia horario atividade data_hoje = false :=
        tarefa_ja_existe_hoje_falha repo dia horario atividade data_hoje hf
      have hcr := criar_tarefa_eq repo (tituloCandidato horario atividade) dia
        (extrair_prioridade atividade) "agenda".toList data_hoje
        (tituloCandidato_strip_ne horario atividade)
      simp only [processar_atividades, hdup, Bool.false_eq_true, if_false, hcr]
      exact ih _ _ hf

/-! ## Claims about the synchronization service -/

/-- The grid used by the C2 counterexample: a single cell in Monday's column
holding a `unica` activity whose sole occurrence (its creation Monday,
2024-01-01) is long past on 2024-01-15. -/
def repoUnicaVelha : RepositorioTarefas :=
  { tarefas := []
    grade := [("08:00".toList, 0, "[P1][unica][2024-01-01] velho".toList)] }

/-- **C2 (counterexample).** On Monday 2024-01-15 the cell decodes to a
`unica` recurrence that `atividade_valida_para_data` says is *not* due, yet
`sincronizar_agenda_para_kanban` materializes it anyway (`criadas = 1`, the
task lands on the board): the synchronization never consults the recurrence
evaluator, contradicting the claim that only `IsDue`-true cells are
materialized. -/
theorem c2_counterexample :
    weekdayOrd (ordinalDe 2024 1 15) = 0 ∧
    (extrair_metadados "[P1][unica][2024-01-01] velho".toList).periodicidade
      = "unica".toList ∧
    atividade_valida_para_data (ordinalDe 2024 1 15) "unica".toList
      (some (ordinalDe 2024 1 1)) 0 = false ∧
    (sincronizar_agenda_para_kanban repoUnicaVelha (some .SEGUNDA)
        "2024-01-15".toList).1 = ⟨1, 0, []⟩ ∧
    ((sincronizar_agenda_para_kanban repoUnicaVelha (some .SEGUNDA)
        "2024-01-15".toList).2.tarefas.map (fun t => t.titulo))
      = ["[08:00] [P1][unica][2024-01-01] velho".toList] := by
  decide

/-- **C2 (amended).** On a business day `sincronizar_agenda_para_kanban`
selects exactly the non-blank cells of today's weekday column, irrespective
of their recurrence metadata: each such cell is either created or skipped
(never an error), created tasks extend the board one-for-one, the grid is
untouched, and on a weekend nothing happens at all. -/
theorem c2_amended (repo : RepositorioTarefas) (dia : DiaDaSemana) (data_hoje : Str) :
    (sincronizar_agenda_para_kanban repo (some dia) data_hoje).1.criadas +
      (sincronizar_agenda_para_kanban repo (some dia) data_hoje).1.ignoradas
        = (atividades_hoje repo dia).length ∧
    (sincronizar_agenda_para_kanban repo (some dia) data_hoje).1.erros = [] ∧
    (sincronizar_agenda_para_kanban repo (some dia) data_hoje).2.tarefas.length
      = repo.tarefas.length +
        (sincronizar_agenda_para_kanban repo (some dia) data_hoje).1.criadas ∧
    (sincronizar_agenda_para_kanban repo (some dia) data_hoje).2.grade = repo.grade ∧
    sincronizar_agenda_para_kanban repo none data_hoje = (⟨0, 0, []⟩, repo) := by
  obtain ⟨nc, ni, novas, h1, h2, h3, h4, h5, h6, h7, h8, h9⟩ :=
    processar_shape dia data_hoje (atividades_hoje repo dia) ⟨0, 0, []⟩ repo
  dsimp only at h1 h2 h3
  have hs : sincronizar_agenda_para_kanban repo (some dia) data_hoje
      = processar_atividades dia data_hoje (atividades_hoje repo dia) ⟨0, 0, []⟩ repo := rfl
  refine ⟨?_, ?_, ?_, ?_, rfl⟩
  · rw [hs, h1, h2]; omega
  · rw [hs, h3]
  · rw [hs, h4, h1]
    simp only [List.length_append]
    omega
  · rw [hs, h5]

/-- The board used by the C6 counterexample: a **manually** created task with
today's creation date whose title collides with the candidate title. -/
def repoTarefaManual : RepositorioTarefas :=
  { tarefas := [{ titulo := "[08:00] tarefa".toList,
                  dia := "Segunda-Feira".toList,
                  status := "Fazer".toList,
                  origem := "manual".toList,
                  data_criacao := some "2024-01-15".toList }]
    grade := [("08:00".toList, 0, "tarefa".toList)] }

/-- **C6 (counterexample).** The first branch of `_tarefa_ja_existe_hoje`
compares only title and creation date — it never looks at `origem` — so a
*manually* created task with today's date and a colliding title does trigger
a skip, contradicting "both branches require origin = schedule; a manually
created task never triggers a skip". -/
theorem c6_counterexample :
    (∀ t ∈ repoTarefaManual.tarefas, t.origem = "manual".toList) ∧
    tarefa_ja_existe_hoje repoTarefaManual .SEGUNDA "08:00".toList "tarefa".toList
      "2024-01-15".toList = true ∧
    (sincronizar_agenda_para_kanban repoTarefaManual (some .SEGUNDA)
        "2024-01-15".toList).1 = ⟨0, 1, []⟩ := by
  decide

/-- **C6 (amended).** With a working store read, the duplicate check fires
exactly when some task of today's weekday has the identical candidate title
`"[timeLabel] rawCellText"` and **either** was created today (regardless of
origin — a manual task created today does trigger a skip) **or** carries
origin `"agenda"` (the legacy fallback, regardless of date). -/
theorem c6_amended (repo : RepositorioTarefas) (dia : DiaDaSemana)
    (horario atividade data_hoje : Str) (hf : repo.falha_leitura = false) :
    tarefa_ja_existe_hoje repo dia horario atividade data_hoje = true ↔
      ∃ t ∈ repo.tarefas, t.dia = dia.value ∧
        t.titulo = tituloCandidato horario atividade ∧
        (t.data_criacao = some data_hoje ∨ t.origem = "agenda".toList) := by
  simp only [tarefa_ja_existe_hoje, obter_por_dia, hf, Bool.false_eq_true, if_false,
    List.any_eq_true, List.mem_filter, Bool.and_eq_true, Bool.or_eq_true, beq_iff_eq]
  constructor
  · rintro ⟨t, ⟨hmem, hdia⟩, htit, hrest⟩
    exact ⟨t, hmem, hdia, htit, hrest⟩
  · rintro ⟨t, hmem, hdia, htit, hrest⟩
    exact ⟨t, ⟨hmem, hdia⟩, htit, hrest⟩

/-- The board used by the C6 witness: a legacy schedule-origin task without a
stored creation date, skipped through the fallback branch. -/
def repoLegado : RepositorioTarefas :=
  { tarefas := [{ titulo := "[08:00] tarefa".toList,
                  dia := "Segunda-Feira".toList,
                  status := "Fazer".toList,
                  origem := "agenda".toList,
                  data_criacao := none }]
    grade := [("08:00".toList, 0, "tarefa".toList)] }

/-- Witness for `c6_amended` on the legacy board. -/
theorem c6_witness :
    repoLegado.falha_leitura = false ∧
    (tarefa_ja_existe_hoje repoLegado .SEGUNDA "08:00".toList "tarefa".toList
        "2024-01-15".toList = true ↔
      ∃ t ∈ repoLegado.tarefas, t.dia = DiaDaSemana.SEGUNDA.value ∧
        t.titulo = tituloCandidato "08:00".toList "tarefa".toList ∧
        (t.data_criacao = some "2024-01-15".toList ∨ t.origem = "agenda".toList)) :=
  ⟨rfl, c6_amended repoLegado .SEGUNDA "08:00".toList "tarefa".toList
    "2024-01-15".toList rfl⟩

/-- **C10.** When the store's task read raises, `_tarefa_ja_existe_hoje`
swallows the exception and answers `false`, so the synchronization skips
nothing, records no error, and creates a board task for *every* selected cell
— even ones already materialized. -/
theorem c10_falha_leitura (repo : RepositorioTarefas) (dia : DiaDaSemana)
    (horario atividade data_hoje : Str) (hf : repo.falha_leitura = true) :
    tarefa_ja_existe_hoje repo dia horario atividade data_hoje = false ∧
    (sincronizar_agenda_para_kanban repo (some dia) data_hoje).1.ignoradas = 0 ∧
    (sincronizar_agenda_para_kanban repo (some dia) data_hoje).1.erros = [] ∧
    (sincronizar_agenda_para_kanban repo (some dia) data_hoje).1.criadas
      = (atividades_hoje repo dia).length ∧
    (sincronizar_agenda_para_kanban repo (some dia) data_hoje).2.tarefas.length
      = repo.tarefas.length + (atividades_hoje repo dia).length := by
  obtain ⟨nc, ni, novas, h1, h2, h3, h4, h5, h6, h7, h8, h9⟩ :=
    processar_shape dia data_hoje (atividades_hoje repo dia) ⟨0, 0, []⟩ repo
  dsimp only at h1 h2 h3
  have hs : sincronizar_agenda_para_kanban repo (some dia) data_hoje
      = processar_atividades dia data_hoje (atividades_hoje repo dia) ⟨0, 0, []⟩ repo := rfl
  have hni : (processar_atividades dia data_hoje (atividades_hoje repo dia)
      ⟨0, 0, []⟩ repo).1.ignoradas = 0 := by
    have := processar_com_falha dia data_hoje (atividades_hoje repo dia) ⟨0, 0, []⟩ repo hf
    simpa using this
  refine ⟨tarefa_ja_existe_hoje_falha repo dia horario atividade data_hoje hf,
    by rw [hs]; exact hni, by rw [hs, h3], ?_, ?_⟩
  · rw [hs, h1]
    omega
  · rw [hs, h4]
    simp only [List.length_append]
    omega

/-- The state used by the C10 witness: the cell was already materialized
today (an identical schedule-origin task exists), but the read failure hides
it, so a second, duplicate task is created. -/
def repoFalhaLeitura : RepositorioTarefas :=
  { tarefas := [{ titulo := "[08:00] tarefa".toList,
                  dia := "Segunda-Feira".toList,
                  status := "Fazer".toList,
                  origem := "agenda".toList,
                  data_criacao := some "2024-01-15".toList }]
    grade := [("08:00".toList, 0, "tarefa".toList)]
    falha_leitura := true }

/-- Witness for `c10_falha_leitura`: on the failing store the one due cell is
created again rather than skipped. -/
theorem c10_witness :
    repoFalhaLeitura.falha_leitura = true ∧
    tarefa_ja_existe_hoje repoFalhaLeitura .SEGUNDA "08:00".toList "tarefa".toList
      "2024-01-15".toList = false ∧
    (sincronizar_agenda_para_kanban repoFalhaLeitura (some .SEGUNDA)
        "2024-01-15".toList).1.ignoradas = 0 ∧
    (sincronizar_agenda_para_kanban repoFalhaLeitura (some .SEGUNDA)
        "2024-01-15".toList).1.erros = [] ∧
    (sincronizar_agenda_para_kanban repoFalhaLeitura (some .SEGUNDA)
        "2024-01-15".toList).1.criadas
      = (atividades_hoje repoFalhaLeitura .SEGUNDA).length ∧
    (sincronizar_agenda_para_kanban repoFalhaLeitura (some .SEGUNDA)
        "2024-01-15".toList).2.tarefas.length
      = repoFalhaLeitura.tarefas.length +
        (atividades_hoje repoFalhaLeitura .SEGUNDA).length :=
  ⟨rfl, c10_falha_leitura repoFalhaLeitura .SEGUNDA "08:00".toList "tarefa".toList
    "2024-01-15".toList rfl⟩

/-- The grid of the C5 counterexample: one cell whose text carries a trailing
space. -/
def repoEspacoFinal : RepositorioTarefas :=
  { tarefas := []
    grade := [("08:00".toList, 0, "tarefa ".toList)] }

/-- **C5 (counterexample).** With the cell text `"tarefa "` (trailing space)
the first run returns `created = 1, skipped = 0` with no errors — the claim's
premise — yet the second run creates again instead of skipping: the stored
title was trimmed by `criar_tarefa` while the duplicate check compares the
*untrimmed* candidate title, so they never match. -/
theorem c5_counterexample :
    (sincronizar_agenda_para_kanban repoEspacoFinal (some .SEGUNDA)
        "2024-01-15".toList).1 = ⟨1, 0, []⟩ ∧
    (sincronizar_agenda_para_kanban
        (sincronizar_agenda_para_kanban repoEspacoFinal (some .SEGUNDA)
          "2024-01-15".toList).2
        (some .SEGUNDA) "2024-01-15".toList).1 = ⟨1, 0, []⟩ := by
  decide

/-- **C5 (amended).** Idempotence holds under the additional premises that
the store read works and that no selected cell text has trailing whitespace
(so the candidate title survives `criar_tarefa`'s trim): if the first run on
a business day skipped nothing, the second run on the same day creates
nothing, skips exactly the cells the first run created, reports no errors,
and leaves the repository — in particular the board task count — unchanged. -/
theorem c5_amended (repo : RepositorioTarefas) (dia : DiaDaSemana) (data_hoje : Str)
    (hf : repo.falha_leitura = false)
    (hnb : ∀ ha ∈ atividades_hoje repo dia,
      pyStrip (tituloCandidato ha.1 ha.2) = tituloCandidato ha.1 ha.2)
    (hskip : (sincronizar_agenda_para_kanban repo (some dia) data_hoje).1.ignoradas = 0) :
    sincronizar_agenda_para_kanban
        (sincronizar_agenda_para_kanban repo (some dia) data_hoje).2 (some dia) data_hoje
      = (⟨0, (sincronizar_agenda_para_kanban repo (some dia) data_hoje).1.criadas, []⟩,
         (sincronizar_agenda_para_kanban repo (some dia) data_hoje).2) := by
  have hs : sincronizar_agenda_para_kanban repo (some dia) data_hoje
      = processar_atividades dia data_hoje (atividades_hoje repo dia) ⟨0, 0, []⟩ repo := rfl
  obtain ⟨nc, ni, novas, h1, h2, h3, h4, h5, h6, h7, h8, h9⟩ :=
    processar_shape dia data_hoje (atividades_hoje repo dia) ⟨0, 0, []⟩ repo
  dsimp only at h1 h2 h3
  rw [hs] at hskip
  have hni : ni = 0 := by omega
  have hnoskip : (processar_atividades dia data_hoje (atividades_hoje repo dia)
      ⟨0, 0, []⟩ repo).1.ignoradas = (⟨0, 0, []⟩ : Resultado).ignoradas := by
    rw [hskip]
  have hexiste := processar_sem_ignorar dia data_hoje (atividades_hoje repo dia)
    ⟨0, 0, []⟩ repo hnoskip
  -- the repository after the first run
  have hgrade : ((sincronizar_agenda_para_kanban repo (some dia) data_hoje).2).grade
      = repo.grade := by rw [hs]; exact h5
  have hcells : atividades_hoje (sincronizar_agenda_para_kanban repo
      (some dia) data_hoje).2 dia = atividades_hoje repo dia := by
    unfold atividades_hoje
    rw [hgrade]
  have hfalha : ((sincronizar_agenda_para_kanban repo (some dia) data_hoje).2).falha_leitura
      = false := by rw [hs, h6, hf]
  -- every cell is now a duplicate
  have htodos : ∀ ha ∈ atividades_hoje repo dia,
      tarefa_ja_existe_hoje (sincronizar_agenda_para_kanban repo (some dia) data_hoje).2
        dia ha.1 ha.2 data_hoje = true := by
    intro ha hmem
    obtain ⟨t, htmem, htdia, httit, htdata, _⟩ := hexiste ha hmem
    rw [← hs] at htmem
    simp only [tarefa_ja_existe_hoje, obter_por_dia, hfalha, Bool.false_eq_true, if_false,
      List.any_eq_true, List.mem_filter, Bool.and_eq_true, Bool.or_eq_true, beq_iff_eq]
    refine ⟨t, ⟨htmem, htdia⟩, ?_, Or.inl htdata⟩
    rw [httit, hnb ha hmem]
  have hsegunda : sincronizar_agenda_para_kanban
      (sincronizar_agenda_para_kanban repo (some dia) data_hoje).2 (some dia) data_hoje
      = processar_atividades dia data_hoje
          (atividades_hoje (sincronizar_agenda_para_kanban repo (some dia) data_hoje).2 dia)
          ⟨0, 0, []⟩
          (sincronizar_agenda_para_kanban repo (some dia) data_hoje).2 := rfl
  rw [hsegunda, hcells,
    processar_todos_ignorados dia data_hoje (atividades_hoje repo dia) ⟨0, 0, []⟩ _ htodos]
  have hcr : (sincronizar_agenda_para_kanban repo (some dia) data_hoje).1.criadas
      = (atividades_hoje repo dia).length := by
    rw [hs, h1]; omega
  rw [hcr]
  simp

/-- The grid of the C5 witness: one clean cell. -/
def repoCelulaLimpa : RepositorioTarefas :=
  { tarefas := []
    grade := [("08:00".toList, 0, "tarefa".toList)] }

/-- Witness for `c5_amended` on the clean one-cell grid. -/
theorem c5_witness :
    repoCelulaLimpa.falha_leitura = false ∧
    (∀ ha ∈ atividades_hoje repoCelulaLimpa .SEGUNDA,
      pyStrip (tituloCandidato ha.1 ha.2) = tituloCandidato ha.1 ha.2) ∧
    (sincronizar_agenda_para_kanban repoCelulaLimpa (some .SEGUNDA)
        "2024-01-15".toList).1.ignoradas = 0 ∧
    sincronizar_agenda_para_kanban
        (sincronizar_agenda_para_kanban repoCelulaLimpa (some .SEGUNDA)
          "2024-01-15".toList).2 (some .SEGUNDA) "2024-01-15".toList
      = (⟨0, (sincronizar_agenda_para_kanban repoCelulaLimpa (some .SEGUNDA)
            "2024-01-15".toList).1.criadas, []⟩,
         (sincronizar_agenda_para_kanban repoCelulaLimpa (some .SEGUNDA)
            "2024-01-15".toList).2) :=
  ⟨rfl, by decide, by decide,
    c5_amended repoCelulaLimpa .SEGUNDA "2024-01-15".toList rfl (by decide) (by decide)⟩

/-! ## Claims about the metadata codec -/

/-! ### Decoder bounds (C4) -/

theorem casaPrioridade_le (s : Str) (v : Nat) (h : casaPrioridade s = some v) : v ≤ 3 := by
  rcases s with _ | ⟨a, _ | ⟨b, _ | ⟨c, _ | ⟨d, rest⟩⟩⟩⟩ <;>
    simp only [casaPrioridade] at h <;>
    try exact Option.noConfusion h
  split at h
  · next hg =>
      simp only [Option.some.injEq] at h
      obtain ⟨-, -, -, h3, -⟩ := hg
      have h4 : c.toNat ≤ 51 := h3
      omega
  · exact Option.noConfusion h

theorem buscaPrioridade_le (s : Str) : ∀ v, buscaPrioridade s = some v → v ≤ 3 := by
  induction s with
  | nil => intro v h; exact Option.noConfusion h
  | cons c resto ih =>
      intro v h
      simp only [buscaPrioridade] at h
      cases hm : casaPrioridade (c :: resto) with
      | some w =>
          rw [hm] at h
          simp only [Option.some.injEq] at h
          subst h
          exact casaPrioridade_le _ _ hm
      | none =>
          rw [hm] at h
          exact ih v h

/-- The decoded priority can only be one of the matched digits 0–3 or the
default 3: values outside 0–3 are never produced. -/
theorem extrair_prioridade_le (s : Str) : extrair_prioridade s ≤ 3 := by
  unfold extrair_prioridade
  by_cases hs : s = []
  · simp [hs]
  · rw [if_neg hs]
    cases hm : buscaPrioridade s with
    | some v => dsimp only; exact buscaPrioridade_le s v hm
    | none => dsimp only; exact Nat.le_refl 3

theorem casaPeriodicidade_mem (s cod : Str) (h : casaPeriodicidade s = some cod) :
    cod ∈ codigosPeriodicidade := by
  rcases s with _ | ⟨c, resto⟩
  · exact Option.noConfusion h
  · simp only [casaPeriodicidade] at h
    by_cases hc : c = '['
    · rw [if_pos hc] at h
      exact List.mem_of_find?_eq_some h
    · rw [if_neg hc] at h
      exact Option.noConfusion h

theorem buscaPeriodicidade_mem (s : Str) :
    ∀ cod, buscaPeriodicidade s = some cod → cod ∈ codigosPeriodicidade := by
  induction s with
  | nil => intro cod h; exact Option.noConfusion h
  | cons c resto ih =>
      intro cod h
      simp only [buscaPeriodicidade] at h
      cases hm : casaPeriodicidade (c :: resto) with
      | some w =>
          rw [hm] at h
          simp only [Option.some.injEq] at h
          subst h
          exact casaPeriodicidade_mem _ _ hm
      | none =>
          rw [hm] at h
          exact ih cod h

/-- The decoded recurrence code is always one of the five known codes (the
matched alternative, or the default `"semanal"`). -/
theorem extrair_periodicidade_mem (s : Str) :
    extrair_periodicidade s ∈ codigosPeriodicidade := by
  unfold extrair_periodicidade
  by_cases hs : s = []
  · simp only [hs, if_pos]
    decide
  · rw [if_neg hs]
    cases hm : buscaPeriodicidade s with
    | some cod => dsimp only; exact buscaPeriodicidade_mem s cod hm
    | none => dsimp only; decide

/-- **C4.** Decoding is a total function substituting the documented
defaults: the decoded priority is never outside 0–3 (a `[P5]` tag is not
matched and falls back to 3), the decoded recurrence code is always one of
the five known codes, the empty string decodes to all defaults, a
syntactically date-shaped but invalid `[2024-13-99]` yields no creation date
(the `ValueError` of `fromisoformat` is swallowed), and unrecognized bracket
groups are stripped from the title without any failure. -/
theorem c4_decode_total :
    (∀ s : Str, (extrair_metadados s).prioridade ≤ 3 ∧
      (extrair_metadados s).periodicidade ∈ codigosPeriodicidade) ∧
    extrair_metadados [] = ⟨[], 3, "semanal".toList, none⟩ ∧
    extrair_metadados "[2024-13-99] x".toList = ⟨"x".toList, 3, "semanal".toList, none⟩ ∧
    extrair_metadados "[P5] x".toList = ⟨"x".toList, 3, "semanal".toList, none⟩ :=
  ⟨fun s => ⟨extrair_prioridade_le s, extrair_periodicidade_mem s⟩,
    by decide, by decide, by decide⟩

/-! ### Round-trip of the codec (C3) -/

theorem isDigito_digitoDe (r : Nat) : isDigito (digitoDe r) = true := by
  rcases r with _|_|_|_|_|_|_|_|_|r <;> rfl

theorem toNat_digitoDe (r : Nat) (h : r < 10) : (digitoDe r).toNat = 48 + r := by
  rcases r with _|_|_|_|_|_|_|_|_|_|r
  iterate 10 rfl
  omega

theorem digitoDe_ne_rbracket (r : Nat) : ¬ digitoDe r = ']' := by
  intro hcon
  have h1 := isDigito_digitoDe r
  rw [hcon] at h1
  exact absurd h1 (by decide)

theorem diasNoMes_le (ano mes : Nat) : diasNoMes ano mes ≤ 31 := by
  unfold diasNoMes
  split
  · split <;> omega
  · split <;> omega

/-- `_PADRAO_DATA` matches the encoded ISO date group and recovers the
numbers. -/
theorem casaData_iso (y m d : Nat) (hy : y ≤ 9999) (hm : m ≤ 99) (hd : d ≤ 99) (rest : Str) :
    casaData ('[' :: (isoformat ⟨y, m, d⟩ ++ (']' :: rest))) = some (y, m, d) := by
  simp only [isoformat, List.cons_append, List.nil_append]
  simp only [casaData]
  rw [if_pos]
  · simp only [Option.some.injEq, Prod.mk.injEq, valorDigito]
    rw [toNat_digitoDe _ (by omega), toNat_digitoDe _ (by omega), toNat_digitoDe _ (by omega),
        toNat_digitoDe _ (by omega), toNat_digitoDe _ (by omega), toNat_digitoDe _ (by omega),
        toNat_digitoDe _ (by omega), toNat_digitoDe _ (by omega)]
    omega
  · refine ⟨?_, ?_, ?_, ?_, ?_, ?_, ?_, ?_, ?_, ?_, ?_, ?_⟩ <;>
      first | trivial | exact isDigito_digitoDe _

set_option maxHeartbeats 1600000 in
/-- Encoded priorities 0–3 decode to themselves. -/
theorem extrair_prioridade_roundtrip (titulo : Str) (p : Nat) (cod : Str) (y m d : Nat)
    (hoje : DataYMD) (hp : p ≤ 3) :
    extrair_prioridade (formatar_atividade titulo p cod (some ⟨y, m, d⟩) hoje) = p := by
  interval_cases p <;> rfl

set_option maxHeartbeats 1600000 in
/-- Encoded recurrence codes decode to themselves. -/
theorem extrair_periodicidade_roundtrip (titulo : Str) (p : Nat) (cod : Str) (y m d : Nat)
    (hoje : DataYMD) (hp : p ≤ 3) (hcod : cod ∈ codigosPeriodicidade) :
    extrair_periodicidade (formatar_atividade titulo p cod (some ⟨y, m, d⟩) hoje) = cod := by
  simp only [codigosPeriodicidade, List.mem_cons, List.not_mem_nil, or_false] at hcod
  interval_cases p <;> rcases hcod with rfl | rfl | rfl | rfl | rfl <;> rfl

set_option maxHeartbeats 1600000 in
/-- Encoded valid ISO dates decode to themselves. -/
theorem extrair_data_roundtrip (titulo : Str) (p : Nat) (cod : Str) (y m d : Nat)
    (hoje : DataYMD) (hp : p ≤ 3) (hcod : cod ∈ codigosPeriodicidade)
    (hy1 : 1 ≤ y) (hy2 : y ≤ 9999) (hm1 : 1 ≤ m) (hm2 : m ≤ 12) (hd1 : 1 ≤ d)
    (hd2 : d ≤ diasNoMes y m) :
    extrair_data_criacao (formatar_atividade titulo p cod (some ⟨y, m, d⟩) hoje)
      = some ⟨y, m, d⟩ := by
  have hd99 : d ≤ 99 := by have := diasNoMes_le y m; omega
  have hval : dataValida y m d = true := by
    simp only [dataValida, Bool.and_eq_true, decide_eq_true_eq]
    refine ⟨⟨⟨⟨⟨?_, ?_⟩, ?_⟩, ?_⟩, ?_⟩, ?_⟩ <;> omega
  simp only [codigosPeriodicidade, List.mem_cons, List.not_mem_nil, or_false] at hcod
  have hbusca : buscaData (formatar_atividade titulo p cod (some ⟨y, m, d⟩) hoje)
      = some (y, m, d) := by
    interval_cases p <;> rcases hcod with rfl | rfl | rfl | rfl | rfl <;>
      (show buscaData ('[' :: (isoformat ⟨y, m, d⟩ ++ (']' :: ' ' :: titulo))) = some (y, m, d)
       rw [buscaData, casaData_iso y m d hy2 (by omega) hd99 (' ' :: titulo)])
  unfold extrair_data_criacao
  rw [if_neg (show ¬(formatar_atividade titulo p cod (some ⟨y, m, d⟩) hoje = []) from
    List.cons_ne_nil _ _)]
  rw [hbusca]
  dsimp only
  rw [if_pos hval]

theorem dropWhile_idem (p : Char → Bool) (l : Str) :
    (l.dropWhile p).dropWhile p = l.dropWhile p := by
  induction l with
  | nil => rfl
  | cons c r ih =>
      by_cases h : p c
      · rw [List.dropWhile_cons_of_pos h]; exact ih
      · rw [List.dropWhile_cons_of_neg h, List.dropWhile_cons_of_neg h]

theorem pyStrip_dropWhile (s : Str) : pyStrip (s.dropWhile isEspaco) = pyStrip s := by
  unfold pyStrip
  rw [dropWhile_idem]

theorem munchFim_skip (c : Char) (h : ¬ c = ']') (r : Str) : munchFim (c :: r) = munchFim r := by
  simp only [munchFim, if_neg h]

theorem munchFim_hit (r : Str) : munchFim (']' :: r) = some r := rfl

theorem munchConteudo_cons (c : Char) (h : ¬ c = ']') (r : Str) :
    munchConteudo (c :: r) = munchFim r := by
  simp only [munchConteudo, if_neg h]

theorem munchGrupo_cons (xs : Str) :
    munchGrupo ('[' :: xs)
      = match munchConteudo xs with
        | some depois => some (depois.dropWhile isEspaco)
        | none => none := rfl

/-- `_PADRAO_METADADOS` consumes the encoded ISO date group whole: its ten
characters are digits and dashes, never a closing bracket. -/
theorem munchGrupo_data (y m d : Nat) (rest : Str) :
    munchGrupo ('[' :: (isoformat ⟨y, m, d⟩ ++ (']' :: rest)))
      = some (rest.dropWhile isEspaco) := by
  simp only [isoformat, List.cons_append, List.nil_append]
  rw [munchGrupo_cons, munchConteudo_cons _ (digitoDe_ne_rbracket _),
      munchFim_skip _ (digitoDe_ne_rbracket _), munchFim_skip _ (digitoDe_ne_rbracket _),
      munchFim_skip _ (digitoDe_ne_rbracket _), munchFim_skip _ (by decide),
      munchFim_skip _ (digitoDe_ne_rbracket _), munchFim_skip _ (digitoDe_ne_rbracket _),
      munchFim_skip _ (by decide), munchFim_skip _ (digitoDe_ne_rbracket _),
      munchFim_skip _ (digitoDe_ne_rbracket _), munchFim_hit]

set_option maxHeartbeats 1600000 in
/-- Decoding the encoded text recovers the trimmed title, provided the title
does not itself begin (after leading whitespace) with a complete bracket
group — otherwise `_PADRAO_METADADOS` would eat into it. -/
theorem extrair_titulo_roundtrip (titulo : Str) (p : Nat) (cod : Str) (y m d : Nat)
    (hoje : DataYMD) (hp : p ≤ 3) (hcod : cod ∈ codigosPeriodicidade)
    (ht : munchGrupo (titulo.dropWhile isEspaco) = none) :
    extrair_titulo_limpo (formatar_atividade titulo p cod (some ⟨y, m, d⟩) hoje)
      = pyStrip titulo := by
  simp only [codigosPeriodicidade, List.mem_cons, List.not_mem_nil, or_false] at hcod
  have hstep1 : ∀ rest2 : Str,
      munchGrupo ('[' :: (cod ++ (']' :: '[' :: rest2))) = some ('[' :: rest2) := by
    rcases hcod with rfl | rfl | rfl | rfl | rfl <;> (intro rest2; rfl)
  obtain ⟨c0, c1, cr, rfl⟩ : ∃ c0 c1 cr, cod = c0 :: c1 :: cr := by
    rcases hcod with rfl | rfl | rfl | rfl | rfl <;> exact ⟨_, _, _, rfl⟩
  simp only [List.cons_append] at hstep1
  have e4 : (' ' :: titulo).dropWhile isEspaco = titulo.dropWhile isEspaco :=
    List.dropWhile_cons_of_pos (by decide)
  interval_cases p <;>
    (show pyStrip (removeGruposLoop ('[' :: c0 :: c1 :: (cr ++ (']' :: '[' ::
        (isoformat ⟨y, m, d⟩ ++ (']' :: ' ' :: titulo)))))) = pyStrip titulo
     rw [removeGruposLoop_eq_of_munch _ _
          (hstep1 (isoformat ⟨y, m, d⟩ ++ (']' :: ' ' :: titulo))),
        removeGruposLoop_eq_of_munch _ _ (munchGrupo_data y m d (' ' :: titulo)),
        e4, removeGruposLoop_eq_self _ ht, pyStrip_dropWhile])

/-- **C3 (counterexample).** A title that begins with a bracket group does
not survive the round trip: `"[x] foo"` comes back as `"foo"`, because the
metadata-stripping pattern removes *every* leading bracket group, the
title's own included.  (Priority, code, and date still round-trip.) -/
theorem c3_counterexample :
    (extrair_metadados (formatar_atividade "[x] foo".toList 1 "semanal".toList
        (some ⟨2024, 1, 2⟩) ⟨2020, 1, 1⟩)).titulo = "foo".toList ∧
    pyStrip "[x] foo".toList = "[x] foo".toList ∧
    "foo".toList ≠ "[x] foo".toList := by
  decide

/-- **C3 (amended).** The codec round-trips for every priority 0–3, every
known recurrence code, every valid ISO date (year 1…9999), and every title
that does not begin (after leading whitespace) with a complete bracket
group `[…]`: decoding the encoded text yields the trimmed title and exactly
the encoded priority, code, and creation date. -/
theorem c3_roundtrip_amended (titulo : Str) (p : Nat) (cod : Str) (y m d : Nat)
    (hoje : DataYMD) (hp : p ≤ 3) (hcod : cod ∈ codigosPeriodicidade)
    (hy1 : 1 ≤ y) (hy2 : y ≤ 9999) (hm1 : 1 ≤ m) (hm2 : m ≤ 12) (hd1 : 1 ≤ d)
    (hd2 : d ≤ diasNoMes y m)
    (ht : munchGrupo (titulo.dropWhile isEspaco) = none) :
    extrair_metadados (formatar_atividade titulo p cod (some ⟨y, m, d⟩) hoje)
      = ⟨pyStrip titulo, p, cod, some ⟨y, m, d⟩⟩ := by
  simp only [extrair_metadados, MetadadosAtividade.mk.injEq]
  exact ⟨extrair_titulo_roundtrip titulo p cod y m d hoje hp hcod ht,
    extrair_prioridade_roundtrip titulo p cod y m d hoje hp,
    extrair_periodicidade_roundtrip titulo p cod y m d hoje hp hcod,
    extrair_data_roundtrip titulo p cod y m d hoje hp hcod hy1 hy2 hm1 hm2 hd1 hd2⟩

/-- Witness for `c3_roundtrip_amended` at a concrete encoding (including a
leap-day creation date). -/
theorem c3_witness :
    (2 ≤ 3 ∧ "mensal".toList ∈ codigosPeriodicidade ∧ 29 ≤ diasNoMes 2024 2 ∧
      munchGrupo ("estudar".toList.dropWhile isEspaco) = none) ∧
    extrair_metadados (formatar_atividade "estudar".toList 2 "mensal".toList
        (some ⟨2024, 2, 29⟩) ⟨2020, 1, 1⟩)
      = ⟨pyStrip "estudar".toList, 2, "mensal".toList, some ⟨2024, 2, 29⟩⟩ :=
  ⟨⟨by decide, by decide, by decide, by decide⟩,
   c3_roundtrip_amended "estudar".toList 2 "mensal".toList 2024 2 29 ⟨2020, 1, 1⟩
     (by decide) (by decide) (by decide) (by decide) (by decide) (by decide)
     (by decide) (by decide) (by decide)⟩
